import Mathlib

/-!
Verification of the query-routing and text-to-SQL pipeline of the
database-agent repository, as a shallow embedding in Lean 4.

The embedding follows the current ("app") revision of the code:
`app/agents/router.py`, `app/agents/text2sql.py`, `app/agents/chat.py`,
`app/agents/visualization.py`, `app/database/connector.py`,
`app/models/context.py`, `app/config/settings.py`.  The historical
("src") revision is embedded separately (namespace `SrcRev`) where a
property is decided by that revision (`src/agents/visualization.py`).

External collaborators (the language-model backend and the live
database engine) are modelled as oracle parameters: each collaborator
call either raises an exception (`Except.error msg`), returns a null
result (`Except.ok none` for structured completions), or returns a
value.  Every pipeline function also returns the ordered list of
collaborator/dispatch events it performed, so that temporal claims
("the executor is never invoked") are statable about traces.
-/

set_option autoImplicit false

namespace DBAgent

/-- Enum for query types (`app/agents/router.py`, class QueryType). -/
inductive QueryType where
  | text2sql
  | visualization
  | chat
  deriving DecidableEq, Repr

/-- Classification result for user queries (`app/agents/router.py`,
class QueryClassification): query type, confidence score and an
optional rewritten query.  The confidence score is modelled as a
rational number. -/
structure QueryClassification where
  query_type : QueryType
  confidence_score : ℚ
  updated_query : Option String := none
  deriving DecidableEq, Repr

/-- Classification of natural language query validation status
(`app/agents/text2sql.py`, class QueryValidationType). -/
inductive QueryValidationType where
  | valid
  | requires_clarification
  | invalid
  deriving DecidableEq, Repr

/-- Structured output from the query verification step
(`app/agents/text2sql.py`, class VerificationResult). -/
structure VerificationResult where
  validation_status : QueryValidationType
  explanation : String
  clarification_question : Option String := none
  deriving DecidableEq, Repr

/-- Structured output for SQL generation (`app/agents/text2sql.py`,
class SQLQuery). -/
structure SQLQuery where
  reasoning : String
  sql_query : String
  explanation : String
  deriving DecidableEq, Repr

/-- One chat message of the app-revision `Context`
(`app/models/context.py`): a dict with keys role, content, query_type. -/
structure Message where
  role : String
  content : String
  query_type : Option String := none
  deriving DecidableEq, Repr

/-- Conversation context of the app revision (`app/models/context.py`,
class Context).  Its `__init__` creates exactly one attribute,
`messages`. -/
structure Context where
  messages : List Message := []
  deriving DecidableEq, Repr

/-- Context.add_message (`app/models/context.py` lines 9-20): appends
a `{role, content, query_type}` record to `messages`.  The Python
method mutates `self` and returns the new message dict; the embedding
returns the mutated context together with that message. -/
def Context.add_message (c : Context) (role : String) (content : String)
    (query_type : Option String) : Context × Message :=
  let message : Message := { role := role, content := content, query_type := query_type }
  ({ c with messages := c.messages ++ [message] }, message)

/-- Attribute lookup `context.chat_history` on an app-revision
`Context` value.  The class body of `Context` defines only the
attribute `messages` (and methods `add_message`,
`get_conversation_history`), so `hasattr(context, "chat_history")` is
False for every `Context`: the lookup yields no value. -/
def Context.chat_history_attr (_c : Context) : Option (List Message) :=
  none

/-- Result dictionary produced by
`DatabaseConnector.execute_query` (`app/database/connector.py` lines
122-176).  Row dicts (column name to value) are modelled as
association lists of strings; absent dict keys are `none`. -/
structure QueryResult where
  success : Bool
  columns : Option (List String) := none
  rows : Option (List (List (String × String))) := none
  row_count : Option Int := none
  error : Option String := none
  query : String
  deriving DecidableEq, Repr

/-- Modelled from the spec: the app-revision `models/response.py` is
absent from the corpus (only the historical `src/models/response.py`
is present, which lacks the fields the app agents use).  Spec section 3
"Agent Response" describes a tagged union with common fields
`success`, `query_type`, `query`, `message`, `error`,
`needs_clarification`, `clarification_question`; the SQL variant adds
`sql_query` and `query_results`, the Chat variant adds `answer`.  The
union is flattened into one record with optional variant fields,
mirroring the pydantic subclassing of the historical revision. -/
structure AgentResponse where
  success : Bool
  query_type : String
  query : String
  message : String
  error : Option String := none
  needs_clarification : Bool := false
  clarification_question : Option String := none
  sql_query : Option String := none
  query_results : Option QueryResult := none
  answer : Option String := none
  deriving DecidableEq, Repr

/-- Modelled from the spec: `AgentResponse.error_response` of the
missing app-revision response module, called as
`error_response(query_type=..., query=..., error=...)` by the app
agents.  Following the historical revision (`src/models/response.py`
lines 45-53) and spec section 3: success is False, the message is the
error prefixed with "Error: ", and the error field carries the error
text. -/
def AgentResponse.error_response (query_type : String) (query : String)
    (error : String) : AgentResponse :=
  { success := false
    query_type := query_type
    query := query
    message := "Error: " ++ error
    error := some error }

/-- Modelled from the spec: `Text2SQLResponse.clarification_response`
of the missing app-revision response module, called as
`clarification_response(query_type=..., query=..., explanation=...,
question=...)` by `Text2SQLAgent.process_query`.  Spec sections 3 and
4.2: a Clarification terminal response carries the verifier
explanation and the clarification question, with
`needs_clarification=true` implying `success=false`. -/
def Text2SQLResponse.clarification_response (query_type : String)
    (query : String) (explanation : String) (question : String) : AgentResponse :=
  { success := false
    query_type := query_type
    query := query
    message := explanation
    needs_clarification := true
    clarification_question := some question }

/-- Application settings (`app/config/settings.py`, class Settings),
restricted to the fields the embedded pipeline reads. -/
structure Settings where
  allow_manipulation : Bool
  default_llm_provider : String
  deriving DecidableEq, Repr

/-- Python truthiness-based `a or b` on an optional string: `None` and
the empty string are falsy, so both fall through to `b`. -/
def pyOrStr (a : Option String) (b : String) : String :=
  match a with
  | none => b
  | some s => if s = "" then b else s

/-- Observable events of one pipeline run, in execution order:
language-model calls per channel, schema-context fetches, database
statement executions, and the dispatch of the effective query to the
selected handler. -/
inductive Event where
  | classifyLLM
  | verifyContextFetch
  | verifyLLM
  | generateContextFetch
  | generateLLM
  | chatLLM
  | dbExecute (sql : String)
  | handlerDispatch (t : QueryType) (q : String)
  deriving DecidableEq, Repr

/-- Oracle for `LLMFactory.create_completion`
(`app/utils/llm_factory.py`): one typed channel per response model
used by the pipeline.  Each channel takes the system prompt and the
user prompt; `Except.error msg` models a raised exception, and for the
structured channels `Except.ok none` models a null parsed result. -/
structure LLMOracle where
  classify : String → String → Except String (Option QueryClassification)
  verify : String → String → Except String (Option VerificationResult)
  generate : String → String → Except String (Option SQLQuery)
  chat : String → String → Except String (Option String)

/-- Raw behavior of the database engine for one statement, as observed
by `DatabaseConnector.execute_query`: a row-returning result (column
names plus tuples, `result_proxy.returns_rows` True), a non-row result
with an affected-row count, or a raised exception. -/
inductive DBRaw where
  | rowsResult (columns : List String) (data : List (List String))
  | rowcountResult (n : Int)
  | raised (msg : String)
  deriving DecidableEq, Repr

/-- Oracle for the database collaborator: `run` is the engine behavior
per SQL statement, and `text2sql_context` is the combined outcome of
`DatabaseConnector()` construction plus `get_text2sql_context()`
(either its stringified metadata dictionary or a raised exception). -/
structure DBOracle where
  run : String → DBRaw
  text2sql_context : Except String String

/-- DatabaseConnector.execute_query (`app/database/connector.py` lines
122-176): executes the statement, zips each fetched tuple with the
column names into a row dict, and catches every exception into a
`success=False` dictionary carrying the error text.  No configuration
flag is consulted anywhere in the body: the settings (held by the
connector as `self.settings`) do not gate execution. -/
def DatabaseConnector.execute_query (_s : Settings) (db : DBOracle)
    (query : String) : QueryResult :=
  match db.run query with
  | DBRaw.rowsResult cols data =>
      { success := true
        columns := some cols
        rows := some (data.map (fun r => cols.zip r))
        row_count := some (Int.ofNat data.length)
        query := query }
  | DBRaw.rowcountResult n =>
      { success := true
        row_count := some n
        query := query }
  | DBRaw.raised msg =>
      { success := false
        error := some msg
        query := query }

/-- Modelled from the spec: the Jinja template files under
`prompts/templates` are absent from the corpus, so the rendered
prompts (`app/prompts/prompt_manager.py`) are modelled as opaque text
constants; a user prompt is a function of exactly the template
variables the code passes in. -/
def get_router_system_prompt : String :=
  "router_system"

/-- Modelled from the spec: router user prompt, a function of the
query and the formatted history block
(`PromptManager.get_router_user_prompt`). -/
def get_router_user_prompt (query : String) (history : String) : String :=
  "router_user query=" ++ query ++ " history=" ++ history

/-- Modelled from the spec: chat system prompt
(`PromptManager.get_chat_system_prompt`). -/
def get_chat_system_prompt : String :=
  "chat_system"

/-- Modelled from the spec: verification system prompt
(`PromptManager.get_text2sql_verify_prompt`). -/
def get_text2sql_verify_prompt : String :=
  "text2sql_verify"

/-- Modelled from the spec: verification user prompt, a function of the
query and the stringified metadata
(`PromptManager.get_text2sql_verify_user_prompt`). -/
def get_text2sql_verify_user_prompt (query : String) (metadata : String) : String :=
  "text2sql_verify_user query=" ++ query ++ " metadata=" ++ metadata

/-- Modelled from the spec: generation system prompt
(`PromptManager.get_text2sql_generation_system_prompt`). -/
def get_text2sql_generation_system_prompt : String :=
  "text2sql_generation_system"

/-- Modelled from the spec: generation user prompt, a function of the
query and the stringified metadata
(`PromptManager.get_text2sql_generation_user_prompt`). -/
def get_text2sql_generation_user_prompt (query : String) (metadata : String) : String :=
  "text2sql_generation_user query=" ++ query ++ " metadata=" ++ metadata

/-- Outcome of one handler or pipeline run: the returned response, the
ordered event trace, and the conversation context as the caller
observes it after the call. -/
structure RunResult where
  response : AgentResponse
  events : List Event
  ctx : Option Context
  deriving Repr

/-- Default clarification question substituted by
`Text2SQLAgent.process_query` when the verifier supplies no
clarification question (`app/agents/text2sql.py` line 209). -/
def defaultClarificationQuestion : String :=
  "Could you please provide more specific details for your query?"

/-- Text2SQLAgent._verify_query (`app/agents/text2sql.py` lines
84-126): fetches the schema context and asks the structured
verification channel; a raised exception anywhere in the body is
caught and mapped to an `invalid` verdict ("Error during verification:
..."), and a null model result is mapped to an `invalid` verdict
("Failed to verify query").  The context argument is accepted but
never read by the source body. -/
def Text2SQLAgent._verify_query (llm : LLMOracle) (db : DBOracle)
    (query : String) (_context : Option Context) : VerificationResult × List Event :=
  match db.text2sql_context with
  | Except.error e =>
      ({ validation_status := QueryValidationType.invalid
         explanation := "Error during verification: " ++ e },
       [Event.verifyContextFetch])
  | Except.ok metadata =>
      match llm.verify get_text2sql_verify_prompt
          (get_text2sql_verify_user_prompt query metadata) with
      | Except.error e =>
          ({ validation_status := QueryValidationType.invalid
             explanation := "Error during verification: " ++ e },
           [Event.verifyContextFetch, Event.verifyLLM])
      | Except.ok none =>
          ({ validation_status := QueryValidationType.invalid
             explanation := "Failed to verify query" },
           [Event.verifyContextFetch, Event.verifyLLM])
      | Except.ok (some result) =>
          (result, [Event.verifyContextFetch, Event.verifyLLM])

/-- Text2SQLAgent._generate_sql (`app/agents/text2sql.py` lines
128-163): fetches the schema context and asks the structured
generation channel; a null model result raises ValueError ("SQL
generation failed: empty response from language model"), and every
exception of the body is re-raised wrapped as "Failed to generate SQL:
...".  The raised exception is modelled as `Except.error`.  The
context argument is accepted but never read by the source body. -/
def Text2SQLAgent._generate_sql (llm : LLMOracle) (db : DBOracle)
    (query : String) (_context : Option Context) : Except String SQLQuery × List Event :=
  match db.text2sql_context with
  | Except.error e =>
      (Except.error ("Failed to generate SQL: " ++ e), [Event.generateContextFetch])
  | Except.ok metadata =>
      match llm.generate get_text2sql_generation_system_prompt
          (get_text2sql_generation_user_prompt query metadata) with
      | Except.error e =>
          (Except.error ("Failed to generate SQL: " ++ e),
           [Event.generateContextFetch, Event.generateLLM])
      | Except.ok none =>
          (Except.error
             ("Failed to generate SQL: SQL generation failed: empty response from language model"),
           [Event.generateContextFetch, Event.generateLLM])
      | Except.ok (some result) =>
          (Except.ok result, [Event.generateContextFetch, Event.generateLLM])

/-- Text2SQLAgent.process_query (`app/agents/text2sql.py` lines
165-233): verify, then branch on the validation status; on `valid`,
generate SQL (the source calls `self._generate_sql(query)` with the
context defaulting to None) and execute it.  The top-level try/except
converts the generation failure into a failure response; the context
is never written. -/
def Text2SQLAgent.process_query (s : Settings) (llm : LLMOracle) (db : DBOracle)
    (query : String) (context : Option Context) : RunResult :=
  let verification := (Text2SQLAgent._verify_query llm db query context).1
  let ev1 := (Text2SQLAgent._verify_query llm db query context).2
  match verification.validation_status with
  | QueryValidationType.invalid =>
      { response :=
          { success := false
            query_type := "Text2SQL"
            query := query
            message := verification.explanation
            error := some "The query cannot be answered with the available database schema" }
        events := ev1
        ctx := context }
  | QueryValidationType.requires_clarification =>
      { response :=
          Text2SQLResponse.clarification_response "Text2SQL" query
            verification.explanation
            (pyOrStr verification.clarification_question defaultClarificationQuestion)
        events := ev1
        ctx := context }
  | QueryValidationType.valid =>
      let gen := Text2SQLAgent._generate_sql llm db query none
      match gen.1 with
      | Except.error e =>
          { response :=
              { success := false
                query_type := "Text2SQL"
                query := query
                message := "Error processing Text2SQL query"
                error := some e }
            events := ev1 ++ gen.2
            ctx := context }
      | Except.ok sql_query =>
          let query_results := DatabaseConnector.execute_query s db sql_query.sql_query
          { response :=
              { success := true
                query_type := "Text2SQL"
                query := query
                message := sql_query.explanation
                sql_query := some sql_query.sql_query
                query_results := some query_results }
            events := ev1 ++ gen.2 ++ [Event.dbExecute sql_query.sql_query]
            ctx := context }

/-- ChatAgent.process_query (`app/agents/chat.py` lines 33-68):
forwards the query to the free-text completion channel; a null
response becomes the empty answer, and a raised exception becomes an
error response.  The context is never written. -/
def ChatAgent.process_query (llm : LLMOracle) (query : String)
    (context : Option Context) : RunResult :=
  match llm.chat get_chat_system_prompt query with
  | Except.error e =>
      { response := AgentResponse.error_response "Chat" query e
        events := [Event.chatLLM]
        ctx := context }
  | Except.ok r =>
      { response :=
          { success := true
            query_type := "Chat"
            query := query
            message := "Chat query processed successfully."
            answer := some (match r with | none => "" | some s => s) }
        events := [Event.chatLLM]
        ctx := context }

/-- VisualizationAgent.process_query, app revision
(`app/agents/visualization.py` lines 44-61): an explicit stub
returning a "Not implemented" error response; no collaborator call, no
context write. -/
def VisualizationAgent.process_query (query : String)
    (context : Option Context) : RunResult :=
  { response := AgentResponse.error_response "Visualization" query "Not implemented"
    events := []
    ctx := context }

/-- History block formatted by QueryRouter.classify_query
(`app/agents/router.py` lines 80-89): the empty string unless the
context is truthy, exposes a `chat_history` attribute, and that
attribute is truthy; in that case the messages are joined as
"role: content" lines. -/
def QueryRouter.router_history (context : Option Context) : String :=
  match context with
  | none => ""
  | some c =>
      match c.chat_history_attr with
      | none => ""
      | some msgs =>
          if msgs = [] then ""
          else String.intercalate "\n" (msgs.map (fun m => m.role ++ ": " ++ m.content))

/-- Default classification built in QueryRouter.__init__
(`app/agents/router.py` lines 62-65): Chat with confidence 1.0 and no
updated query. -/
def defaultClassification : QueryClassification :=
  { query_type := QueryType.chat
    confidence_score := 1
    updated_query := none }

/-- QueryRouter.classify_query (`app/agents/router.py` lines 67-107):
formats the history block, asks the structured classification channel,
and falls back to the default classification when the call raises or
returns a null result. -/
def QueryRouter.classify_query (llm : LLMOracle) (query : String)
    (context : Option Context) : QueryClassification × List Event :=
  match llm.classify get_router_system_prompt
      (get_router_user_prompt query (QueryRouter.router_history context)) with
  | Except.error _ => (defaultClassification, [Event.classifyLLM])
  | Except.ok none => (defaultClassification, [Event.classifyLLM])
  | Except.ok (some c) => (c, [Event.classifyLLM])

/-- Effective query forwarded downstream by QueryRouter.route_query
(`app/agents/router.py` line 129): `classification.updated_query or
query` under Python truthiness. -/
def QueryRouter.effective_query (llm : LLMOracle) (query : String)
    (context : Option Context) : String :=
  pyOrStr (QueryRouter.classify_query llm query context).1.updated_query query

/-- QueryRouter.route_query (`app/agents/router.py` lines 109-141):
classify, compute the effective query, and dispatch it to the handler
selected by the classified query type.  The dispatch is recorded as a
`handlerDispatch` event carrying the query string actually passed to
the handler. -/
def QueryRouter.route_query (s : Settings) (llm : LLMOracle) (db : DBOracle)
    (query : String) (context : Option Context) : RunResult :=
  let classification := (QueryRouter.classify_query llm query context).1
  let cev := (QueryRouter.classify_query llm query context).2
  let effective_q := pyOrStr classification.updated_query query
  match classification.query_type with
  | QueryType.text2sql =>
      let r := Text2SQLAgent.process_query s llm db effective_q context
      { response := r.response
        events := cev ++ [Event.handlerDispatch QueryType.text2sql effective_q] ++ r.events
        ctx := r.ctx }
  | QueryType.visualization =>
      let r := VisualizationAgent.process_query effective_q context
      { response := r.response
        events := cev ++ [Event.handlerDispatch QueryType.visualization effective_q] ++ r.events
        ctx := r.ctx }
  | QueryType.chat =>
      let r := ChatAgent.process_query llm effective_q context
      { response := r.response
        events := cev ++ [Event.handlerDispatch QueryType.chat effective_q] ++ r.events
        ctx := r.ctx }

/-- Well-formedness of an agent response, spec section 3 invariant:
`needs_clarification=true` implies `success=false` and a non-empty
clarification question; `success=true` implies no error and no
clarification question. -/
def wellFormed (r : AgentResponse) : Prop :=
  (r.needs_clarification = true →
     r.success = false ∧ ∃ cq, r.clarification_question = some cq ∧ cq ≠ "") ∧
  (r.success = true → r.error = none ∧ r.clarification_question = none)

/-- Is this event part of the SQL-generation phase (schema-context
fetch for generation, or the generation model call)? -/
def Event.isGeneration : Event → Bool
  | Event.generateContextFetch => true
  | Event.generateLLM => true
  | _ => false

/-- Is this event a database statement execution? -/
def Event.isDbExecute : Event → Bool
  | Event.dbExecute _ => true
  | _ => false

/-- Is this event the dispatch of a query to a handler? -/
def Event.isDispatch : Event → Bool
  | Event.handlerDispatch _ _ => true
  | _ => false

/-- Concrete settings fixture. -/
def sampleSettings : Settings :=
  { allow_manipulation := true, default_llm_provider := "openai" }

/-- Concrete settings fixture with the manipulation flag off. -/
def noManipSettings : Settings :=
  { allow_manipulation := false, default_llm_provider := "openai" }

/-- Concrete database fixture: two customer rows for one statement,
an affected-row count for everything else, and available metadata. -/
def sampleDB : DBOracle :=
  { run := fun q =>
      if q = "SELECT * FROM customers;" then
        DBRaw.rowsResult ["id", "name"] [["1", "Ada"], ["2", "Bob"]]
      else DBRaw.rowcountResult 0
    text2sql_context := Except.ok "schema metadata" }

/-- Concrete backend fixture: routes to Text2SQL and raises on
verification. -/
def llmVerifyRaises : LLMOracle :=
  { classify := fun _ _ =>
      Except.ok (some { query_type := QueryType.text2sql, confidence_score := 1 })
    verify := fun _ _ => Except.error "connection reset"
    generate := fun _ _ => Except.ok none
    chat := fun _ _ => Except.ok (some "hello") }

/-- Concrete backend fixture: routes to Text2SQL and asks for
clarification without supplying a question. -/
def llmClarify : LLMOracle :=
  { classify := fun _ _ =>
      Except.ok (some { query_type := QueryType.text2sql, confidence_score := 1 })
    verify := fun _ _ =>
      Except.ok (some
        { validation_status := QueryValidationType.requires_clarification
          explanation := "ambiguous request" })
    generate := fun _ _ => Except.ok none
    chat := fun _ _ => Except.ok (some "hello") }

/-- Concrete backend fixture: the classification call raises. -/
def llmClassifyRaises : LLMOracle :=
  { classify := fun _ _ => Except.error "boom"
    verify := fun _ _ => Except.ok none
    generate := fun _ _ => Except.ok none
    chat := fun _ _ => Except.ok (some "hello") }

/-- Concrete backend fixture: classification rewrites the query using
history and routes to Chat. -/
def llmRewrites : LLMOracle :=
  { classify := fun _ _ =>
      Except.ok (some
        { query_type := QueryType.chat
          confidence_score := 1
          updated_query := some "show sales for last month" })
    verify := fun _ _ => Except.ok none
    generate := fun _ _ => Except.ok none
    chat := fun _ _ => Except.ok (some "here you go") }

/-- Concrete backend fixture: verification passes but generation
returns a null result. -/
def llmGenFails : LLMOracle :=
  { classify := fun _ _ =>
      Except.ok (some { query_type := QueryType.text2sql, confidence_score := 1 })
    verify := fun _ _ =>
      Except.ok (some
        { validation_status := QueryValidationType.valid, explanation := "answerable" })
    generate := fun _ _ => Except.ok none
    chat := fun _ _ => Except.ok (some "hello") }

/-- Concrete backend fixture: a full round trip producing a SELECT. -/
def llmRoundtrip : LLMOracle :=
  { classify := fun _ _ =>
      Except.ok (some { query_type := QueryType.text2sql, confidence_score := 1 })
    verify := fun _ _ =>
      Except.ok (some
        { validation_status := QueryValidationType.valid, explanation := "answerable" })
    generate := fun _ _ =>
      Except.ok (some
        { reasoning := "derivation"
          sql_query := "SELECT * FROM customers;"
          explanation := "lists all customers" })
    chat := fun _ _ => Except.ok (some "hello") }

/-- Concrete backend fixture: a full round trip whose generated
statement is a data-manipulation statement. -/
def llmManip : LLMOracle :=
  { classify := fun _ _ =>
      Except.ok (some { query_type := QueryType.text2sql, confidence_score := 1 })
    verify := fun _ _ =>
      Except.ok (some
        { validation_status := QueryValidationType.valid, explanation := "answerable" })
    generate := fun _ _ =>
      Except.ok (some
        { reasoning := "derivation"
          sql_query := "INSERT INTO users (id) VALUES (1)"
          explanation := "adds a user" })
    chat := fun _ _ => Except.ok (some "hello") }

end DBAgent

namespace SrcRev

/-- One chat message of the historical revision
(`src/models/context.py`): a dict with keys role, content, timestamp.
The wall-clock timestamp is irrelevant to the properties stated here
and is not carried. -/
structure SrcMessage where
  role : String
  content : String
  deriving DecidableEq, Repr

/-- Conversation context of the historical revision
(`src/models/context.py`, class Context), restricted to the message
history (the other attributes are never read by the embedded code). -/
structure SrcContext where
  messages : List SrcMessage := []
  deriving DecidableEq, Repr

/-- Context.add_message of the historical revision
(`src/models/context.py` lines 26-34): appends a `{role, content}`
record to `messages` and returns it; the embedding returns the mutated
context together with that message. -/
def SrcContext.add_message (c : SrcContext) (role : String)
    (content : String) : SrcContext × SrcMessage :=
  let message : SrcMessage := { role := role, content := content }
  ({ c with messages := c.messages ++ [message] }, message)

/-- Response of the historical revision (`src/models/response.py`):
base fields plus the Visualization variant field.  The `data` dict is
modelled as an association list with stringified values. -/
structure SrcAgentResponse where
  success : Bool := true
  query_type : String
  message : String
  data : List (String × String) := []
  error : Option String := none
  visualization_type : Option String := none
  deriving DecidableEq, Repr

/-- Prefix test on character lists. -/
def charsPrefix : List Char → List Char → Bool
  | [], _ => true
  | _ :: _, [] => false
  | a :: as, b :: bs => a == b && charsPrefix as bs

/-- Infix test on character lists: does `pat` occur contiguously in
the second list? -/
def charsInfix (pat : List Char) : List Char → Bool
  | [] => charsPrefix pat []
  | a :: t => charsPrefix pat (a :: t) || charsInfix pat t

/-- Python `pat in s` on strings, via character lists. -/
def pyIn (pat : String) (s : String) : Bool :=
  charsInfix pat.data s.data

/-- Python `s.lower()` restricted to ASCII, via character lists. -/
def pyLower (s : String) : String :=
  String.mk (s.data.map Char.toLower)

/-- Mock chart type picked from query keywords by the historical
VisualizationAgent.process_query (`src/agents/visualization.py` lines
47-57): default "bar", overridden by keyword checks on the lowercased
query. -/
def viz_type_of (query : String) : String :=
  let lower := pyLower query
  if pyIn "line" lower || pyIn "trend" lower || pyIn "over time" lower then "line"
  else if pyIn "scatter" lower || pyIn "correlation" lower then "scatter"
  else if pyIn "pie" lower || pyIn "proportion" lower then "pie"
  else "bar"

/-- VisualizationAgent.process_query of the historical revision
(`src/agents/visualization.py` lines 31-80): picks a mock chart type
from query keywords, and — when the context is truthy and exposes
`add_message`, which `Context` does — appends a user message and an
assistant message to the context before returning a success
response. -/
def VisualizationAgent.process_query (query : String)
    (context : Option SrcContext) : SrcAgentResponse × Option SrcContext :=
  let viz_type := viz_type_of query
  let mock_description :=
    "This is a mock " ++ viz_type ++ " chart visualization for: " ++ query
  let context2 :=
    match context with
    | none => none
    | some c =>
        let c1 := (c.add_message "user" query).1
        some (c1.add_message "assistant"
          ("I\x27ve created a " ++ viz_type ++ " chart based on your query: " ++ query)).1
  ({ success := true
     query_type := "Visualization"
     message := "Visualization created successfully."
     visualization_type := some viz_type
     data :=
       [("type", viz_type), ("description", mock_description), ("mock_data", "True")] },
   context2)

end SrcRev

namespace DBAgent

theorem pyOrStr_ne_empty (a : Option String) (b : String) (hb : b ≠ "") :
    pyOrStr a b ≠ "" := by
  cases a with
  | none => simpa [pyOrStr] using hb
  | some s =>
      by_cases hs : s = "" <;> simp [pyOrStr, hs, hb]

theorem defaultClarificationQuestion_ne_empty : defaultClarificationQuestion ≠ "" := by
  decide

theorem wellFormed_error_response (qt q e : String) :
    wellFormed (AgentResponse.error_response qt q e) := by
  simp [wellFormed, AgentResponse.error_response]

theorem wellFormed_chat_response (llm : LLMOracle) (q : String) (c : Option Context) :
    wellFormed (ChatAgent.process_query llm q c).response := by
  unfold ChatAgent.process_query
  split
  · exact wellFormed_error_response _ _ _
  · simp [wellFormed]

theorem wellFormed_visualization_response (q : String) (c : Option Context) :
    wellFormed (VisualizationAgent.process_query q c).response := by
  unfold VisualizationAgent.process_query
  exact wellFormed_error_response _ _ _

theorem wellFormed_text2sql_response (s : Settings) (llm : LLMOracle) (db : DBOracle)
    (q : String) (c : Option Context) :
    wellFormed (Text2SQLAgent.process_query s llm db q c).response := by
  simp only [Text2SQLAgent.process_query]
  split
  · simp [wellFormed]
  · simp [wellFormed, Text2SQLResponse.clarification_response]
    exact pyOrStr_ne_empty _ _ defaultClarificationQuestion_ne_empty
  · split
    · simp [wellFormed]
    · simp [wellFormed]

/-- C1: for every well-formed input query and optional context, and for
every behavior of the language-model and database collaborators
(including raising calls and null results), route_query returns a
well-formed AgentResponse — every handler error path produces a
response value satisfying the spec invariant instead of propagating a
fault. -/
theorem C1_route_query_wellFormed (s : Settings) (llm : LLMOracle) (db : DBOracle)
    (query : String) (context : Option Context) :
    wellFormed (QueryRouter.route_query s llm db query context).response := by
  simp only [QueryRouter.route_query]
  split
  · exact wellFormed_text2sql_response s llm db _ context
  · exact wellFormed_visualization_response _ context
  · exact wellFormed_chat_response llm _ context

/-- C10: in the app-revision router, classify_query looks for a
chat_history attribute that the Context type does not define, so the
history block in the classification prompt is the empty string and the
classification outcome does not depend on the conversation history:
two runs with any two Context-typed contexts coincide. -/
theorem C10_classification_ignores_history (llm : LLMOracle) (query : String)
    (c1 c2 : Context) :
    QueryRouter.router_history (some c1) = "" ∧
    QueryRouter.classify_query llm query (some c1) =
      QueryRouter.classify_query llm query (some c2) :=
  ⟨rfl, rfl⟩

end DBAgent

namespace DBAgent

theorem classify_query_events (llm : LLMOracle) (q : String) (c : Option Context) :
    (QueryRouter.classify_query llm q c).2 = [Event.classifyLLM] := by
  unfold QueryRouter.classify_query
  split <;> rfl

theorem verify_filter_isGeneration (llm : LLMOracle) (db : DBOracle)
    (q : String) (c : Option Context) :
    ((Text2SQLAgent._verify_query llm db q c).2).filter Event.isGeneration = [] := by
  unfold Text2SQLAgent._verify_query
  split
  · rfl
  · split <;> rfl

theorem verify_filter_isDbExecute (llm : LLMOracle) (db : DBOracle)
    (q : String) (c : Option Context) :
    ((Text2SQLAgent._verify_query llm db q c).2).filter Event.isDbExecute = [] := by
  unfold Text2SQLAgent._verify_query
  split
  · rfl
  · split <;> rfl

theorem verify_filter_isDispatch (llm : LLMOracle) (db : DBOracle)
    (q : String) (c : Option Context) :
    ((Text2SQLAgent._verify_query llm db q c).2).filter Event.isDispatch = [] := by
  unfold Text2SQLAgent._verify_query
  split
  · rfl
  · split <;> rfl

theorem generate_filter_isDbExecute (llm : LLMOracle) (db : DBOracle)
    (q : String) (c : Option Context) :
    ((Text2SQLAgent._generate_sql llm db q c).2).filter Event.isDbExecute = [] := by
  unfold Text2SQLAgent._generate_sql
  split
  · rfl
  · split <;> rfl

theorem generate_filter_isDispatch (llm : LLMOracle) (db : DBOracle)
    (q : String) (c : Option Context) :
    ((Text2SQLAgent._generate_sql llm db q c).2).filter Event.isDispatch = [] := by
  unfold Text2SQLAgent._generate_sql
  split
  · rfl
  · split <;> rfl

theorem route_query_text2sql (s : Settings) (llm : LLMOracle) (db : DBOracle)
    (query : String) (context : Option Context)
    (hroute : (QueryRouter.classify_query llm query context).1.query_type = QueryType.text2sql) :
    QueryRouter.route_query s llm db query context =
      { response := (Text2SQLAgent.process_query s llm db
          (QueryRouter.effective_query llm query context) context).response
        events := [Event.classifyLLM] ++
          [Event.handlerDispatch QueryType.text2sql (QueryRouter.effective_query llm query context)]
            ++ (Text2SQLAgent.process_query s llm db
                 (QueryRouter.effective_query llm query context) context).events
        ctx := (Text2SQLAgent.process_query s llm db
          (QueryRouter.effective_query llm query context) context).ctx } := by
  simp only [QueryRouter.route_query, QueryRouter.effective_query, hroute,
    classify_query_events]

end DBAgent

namespace DBAgent

theorem process_query_invalid (s : Settings) (llm : LLMOracle) (db : DBOracle)
    (q : String) (c : Option Context)
    (h : (Text2SQLAgent._verify_query llm db q c).1.validation_status =
      QueryValidationType.invalid) :
    Text2SQLAgent.process_query s llm db q c =
      { response :=
          { success := false
            query_type := "Text2SQL"
            query := q
            message := (Text2SQLAgent._verify_query llm db q c).1.explanation
            error := some "The query cannot be answered with the available database schema" }
        events := (Text2SQLAgent._verify_query llm db q c).2
        ctx := c } := by
  simp only [Text2SQLAgent.process_query, h]

theorem process_query_clarify (s : Settings) (llm : LLMOracle) (db : DBOracle)
    (q : String) (c : Option Context)
    (h : (Text2SQLAgent._verify_query llm db q c).1.validation_status =
      QueryValidationType.requires_clarification) :
    Text2SQLAgent.process_query s llm db q c =
      { response :=
          Text2SQLResponse.clarification_response "Text2SQL" q
            (Text2SQLAgent._verify_query llm db q c).1.explanation
            (pyOrStr (Text2SQLAgent._verify_query llm db q c).1.clarification_question
              defaultClarificationQuestion)
        events := (Text2SQLAgent._verify_query llm db q c).2
        ctx := c } := by
  simp only [Text2SQLAgent.process_query, h]

theorem process_query_genfail (s : Settings) (llm : LLMOracle) (db : DBOracle)
    (q : String) (c : Option Context) (e : String)
    (hvalid : (Text2SQLAgent._verify_query llm db q c).1.validation_status =
      QueryValidationType.valid)
    (hgen : (Text2SQLAgent._generate_sql llm db q none).1 = Except.error e) :
    Text2SQLAgent.process_query s llm db q c =
      { response :=
          { success := false
            query_type := "Text2SQL"
            query := q
            message := "Error processing Text2SQL query"
            error := some e }
        events := (Text2SQLAgent._verify_query llm db q c).2 ++
          (Text2SQLAgent._generate_sql llm db q none).2
        ctx := c } := by
  simp only [Text2SQLAgent.process_query, hvalid, hgen]

theorem process_query_success (s : Settings) (llm : LLMOracle) (db : DBOracle)
    (q : String) (c : Option Context) (sq : SQLQuery)
    (hvalid : (Text2SQLAgent._verify_query llm db q c).1.validation_status =
      QueryValidationType.valid)
    (hgen : (Text2SQLAgent._generate_sql llm db q none).1 = Except.ok sq) :
    Text2SQLAgent.process_query s llm db q c =
      { response :=
          { success := true
            query_type := "Text2SQL"
            query := q
            message := sq.explanation
            sql_query := some sq.sql_query
            query_results := some (DatabaseConnector.execute_query s db sq.sql_query) }
        events := (Text2SQLAgent._verify_query llm db q c).2 ++
          (Text2SQLAgent._generate_sql llm db q none).2 ++
          [Event.dbExecute sq.sql_query]
        ctx := c } := by
  simp only [Text2SQLAgent.process_query, hvalid, hgen]

end DBAgent

namespace DBAgent

/-- C2: when a query routed to the Text2SQL handler has a verification
phase yielding validation_status=invalid — which includes every run
where the schema-context fetch or the verification backend call raises
and every run where the backend returns a null result, both mapped
fail-closed to an invalid verdict — route_query returns a terminal
response with success=false, needs_clarification=false and a non-empty
error, and the generation phase (schema fetch for generation or
generation model call) is never entered. -/
theorem C2_invalid_verification_fail_closed (s : Settings) (llm : LLMOracle)
    (db : DBOracle) (query : String) (context : Option Context)
    (hroute : (QueryRouter.classify_query llm query context).1.query_type =
      QueryType.text2sql)
    (hinv :
      (∃ e, db.text2sql_context = Except.error e) ∨
      (∃ metadata e, db.text2sql_context = Except.ok metadata ∧
        llm.verify get_text2sql_verify_prompt
          (get_text2sql_verify_user_prompt
            (QueryRouter.effective_query llm query context) metadata) =
          Except.error e) ∨
      (∃ metadata, db.text2sql_context = Except.ok metadata ∧
        llm.verify get_text2sql_verify_prompt
          (get_text2sql_verify_user_prompt
            (QueryRouter.effective_query llm query context) metadata) =
          Except.ok none) ∨
      (Text2SQLAgent._verify_query llm db
        (QueryRouter.effective_query llm query context) context).1.validation_status =
        QueryValidationType.invalid) :
    (QueryRouter.route_query s llm db query context).response.success = false ∧
    (QueryRouter.route_query s llm db query context).response.needs_clarification = false ∧
    (QueryRouter.route_query s llm db query context).response.error.getD "" ≠ "" ∧
    ((QueryRouter.route_query s llm db query context).events.filter Event.isGeneration = [] ∧
     (QueryRouter.route_query s llm db query context).events.filter Event.isDbExecute = []) := by
  have hstatus : (Text2SQLAgent._verify_query llm db
      (QueryRouter.effective_query llm query context) context).1.validation_status =
      QueryValidationType.invalid := by
    rcases hinv with ⟨e, he⟩ | ⟨metadata, e, hm, hv⟩ | ⟨metadata, hm, hv⟩ | h
    · simp [Text2SQLAgent._verify_query, he]
    · simp [Text2SQLAgent._verify_query, hm, hv]
    · simp [Text2SQLAgent._verify_query, hm, hv]
    · exact h
  rw [route_query_text2sql s llm db query context hroute,
    process_query_invalid s llm db _ context hstatus]
  refine ⟨rfl, rfl, by simp, ?_, ?_⟩
  · simp [List.filter_append, Event.isGeneration, verify_filter_isGeneration]
  · simp [List.filter_append, Event.isDbExecute, verify_filter_isDbExecute]

theorem C2_witness :
    (QueryRouter.route_query sampleSettings llmVerifyRaises sampleDB "list widgets" none).response.success = false ∧
    (QueryRouter.route_query sampleSettings llmVerifyRaises sampleDB "list widgets" none).response.needs_clarification = false ∧
    (QueryRouter.route_query sampleSettings llmVerifyRaises sampleDB "list widgets" none).response.error.getD "" ≠ "" ∧
    ((QueryRouter.route_query sampleSettings llmVerifyRaises sampleDB "list widgets" none).events.filter Event.isGeneration = [] ∧
     (QueryRouter.route_query sampleSettings llmVerifyRaises sampleDB "list widgets" none).events.filter Event.isDbExecute = []) :=
  C2_invalid_verification_fail_closed sampleSettings llmVerifyRaises sampleDB
    "list widgets" none (by decide)
    (Or.inr (Or.inl ⟨"schema metadata", "connection reset", rfl, rfl⟩))

/-- C3: when a query routed to the Text2SQL handler has a verification
phase yielding validation_status=requires_clarification, route_query
returns a response with success=false, needs_clarification=true and a
non-empty clarification_question, substituting the default question
string whenever the verifier supplied none. -/
theorem C3_clarification_response (s : Settings) (llm : LLMOracle)
    (db : DBOracle) (query : String) (context : Option Context)
    (hroute : (QueryRouter.classify_query llm query context).1.query_type =
      QueryType.text2sql)
    (hclar : (Text2SQLAgent._verify_query llm db
      (QueryRouter.effective_query llm query context) context).1.validation_status =
      QueryValidationType.requires_clarification) :
    (QueryRouter.route_query s llm db query context).response.success = false ∧
    (QueryRouter.route_query s llm db query context).response.needs_clarification = true ∧
    (QueryRouter.route_query s llm db query context).response.clarification_question.getD "" ≠ "" ∧
    ((Text2SQLAgent._verify_query llm db
        (QueryRouter.effective_query llm query context) context).1.clarification_question = none →
      (QueryRouter.route_query s llm db query context).response.clarification_question =
        some defaultClarificationQuestion) := by
  rw [route_query_text2sql s llm db query context hroute,
    process_query_clarify s llm db _ context hclar]
  refine ⟨rfl, rfl, ?_, ?_⟩
  · simpa [Text2SQLResponse.clarification_response] using
      pyOrStr_ne_empty
        (Text2SQLAgent._verify_query llm db
          (QueryRouter.effective_query llm query context) context).1.clarification_question
        defaultClarificationQuestion defaultClarificationQuestion_ne_empty
  · intro h
    simp [Text2SQLResponse.clarification_response, h, pyOrStr]

theorem C3_witness :
    (QueryRouter.route_query sampleSettings llmClarify sampleDB "show them" none).response.success = false ∧
    (QueryRouter.route_query sampleSettings llmClarify sampleDB "show them" none).response.needs_clarification = true ∧
    (QueryRouter.route_query sampleSettings llmClarify sampleDB "show them" none).response.clarification_question.getD "" ≠ "" ∧
    (QueryRouter.route_query sampleSettings llmClarify sampleDB "show them" none).response.clarification_question =
      some defaultClarificationQuestion := by
  have T := C3_clarification_response sampleSettings llmClarify sampleDB
    "show them" none (by decide) (by decide)
  exact ⟨T.1, T.2.1, T.2.2.1, T.2.2.2 rfl⟩

end DBAgent

namespace DBAgent

/-- C4: whenever the classification backend call raises or returns a
null result, classify_query returns exactly the default classification
(Chat, confidence 1.0, no updated query) and raises nothing: the
failure is absorbed locally and never surfaces to the caller. -/
theorem C4_classification_fail_safe (llm : LLMOracle) (query : String)
    (context : Option Context) :
    defaultClassification =
      { query_type := QueryType.chat, confidence_score := 1, updated_query := none } ∧
    (∀ e, llm.classify get_router_system_prompt
        (get_router_user_prompt query (QueryRouter.router_history context)) =
          Except.error e →
      QueryRouter.classify_query llm query context =
        (defaultClassification, [Event.classifyLLM])) ∧
    (llm.classify get_router_system_prompt
        (get_router_user_prompt query (QueryRouter.router_history context)) =
          Except.ok none →
      QueryRouter.classify_query llm query context =
        (defaultClassification, [Event.classifyLLM])) := by
  refine ⟨rfl, ?_, ?_⟩
  · intro e he
    simp [QueryRouter.classify_query, he]
  · intro h
    simp [QueryRouter.classify_query, h]

theorem C4_witness :
    QueryRouter.classify_query llmClassifyRaises "what is the weather" none =
      (defaultClassification, [Event.classifyLLM]) :=
  (C4_classification_fail_safe llmClassifyRaises "what is the weather" none).2.1 "boom" rfl

theorem chat_process_events (llm : LLMOracle) (q : String) (c : Option Context) :
    (ChatAgent.process_query llm q c).events = [Event.chatLLM] := by
  unfold ChatAgent.process_query
  split <;> rfl

theorem text2sql_filter_isDispatch (s : Settings) (llm : LLMOracle) (db : DBOracle)
    (q : String) (c : Option Context) :
    (Text2SQLAgent.process_query s llm db q c).events.filter Event.isDispatch = [] := by
  simp only [Text2SQLAgent.process_query]
  split
  · exact verify_filter_isDispatch llm db q c
  · exact verify_filter_isDispatch llm db q c
  · split <;>
      simp [List.filter_append, Event.isDispatch, verify_filter_isDispatch,
        generate_filter_isDispatch]

theorem route_filter_isDispatch (s : Settings) (llm : LLMOracle) (db : DBOracle)
    (query : String) (context : Option Context) :
    (QueryRouter.route_query s llm db query context).events.filter Event.isDispatch =
      [Event.handlerDispatch (QueryRouter.classify_query llm query context).1.query_type
        (pyOrStr (QueryRouter.classify_query llm query context).1.updated_query query)] := by
  simp only [QueryRouter.route_query]
  split
  case _ heq =>
    rw [heq]
    simp [classify_query_events, List.filter_append, Event.isDispatch,
      text2sql_filter_isDispatch]
  case _ heq =>
    rw [heq]
    simp [classify_query_events, List.filter_append, Event.isDispatch,
      VisualizationAgent.process_query]
  case _ heq =>
    rw [heq]
    simp [classify_query_events, List.filter_append, Event.isDispatch,
      chat_process_events]

/-- C5: route_query dispatches exactly one handler call, and the query
string it passes equals updated_query whenever the classification
supplied a non-empty updated_query; when updated_query is absent or
empty, the original query is forwarded unchanged. -/
theorem C5_effective_query_forwarded (s : Settings) (llm : LLMOracle) (db : DBOracle)
    (query : String) (context : Option Context) :
    (∀ u, (QueryRouter.classify_query llm query context).1.updated_query = some u →
      u ≠ "" →
      (QueryRouter.route_query s llm db query context).events.filter Event.isDispatch =
        [Event.handlerDispatch
          (QueryRouter.classify_query llm query context).1.query_type u]) ∧
    (((QueryRouter.classify_query llm query context).1.updated_query = none ∨
        (QueryRouter.classify_query llm query context).1.updated_query = some "") →
      (QueryRouter.route_query s llm db query context).events.filter Event.isDispatch =
        [Event.handlerDispatch
          (QueryRouter.classify_query llm query context).1.query_type query]) := by
  constructor
  · intro u hu hne
    rw [route_filter_isDispatch]
    simp [pyOrStr, hu, hne]
  · rintro (h | h) <;> rw [route_filter_isDispatch] <;> simp [pyOrStr, h]

theorem C5_witness :
    (QueryRouter.route_query sampleSettings llmRewrites sampleDB
        "and last month too" none).events.filter Event.isDispatch =
      [Event.handlerDispatch QueryType.chat "show sales for last month"] :=
  (C5_effective_query_forwarded sampleSettings llmRewrites sampleDB
    "and last month too" none).1 "show sales for last month" rfl (by decide)

end DBAgent

namespace DBAgent

/-- C6: when a query routed to the Text2SQL handler passes verification
as valid but SQL generation fails — including the null-model-output
case, which _generate_sql maps to a raised generation error — the
pipeline returns success=false carrying the generation error, and the
database executor is never invoked (zero dbExecute events in the
run). -/
theorem C6_generation_failure_skips_executor (s : Settings) (llm : LLMOracle)
    (db : DBOracle) (query : String) (context : Option Context) (e : String)
    (hroute : (QueryRouter.classify_query llm query context).1.query_type =
      QueryType.text2sql)
    (hvalid : (Text2SQLAgent._verify_query llm db
      (QueryRouter.effective_query llm query context) context).1.validation_status =
      QueryValidationType.valid)
    (hgen : (Text2SQLAgent._generate_sql llm db
      (QueryRouter.effective_query llm query context) none).1 = Except.error e) :
    (∀ metadata, db.text2sql_context = Except.ok metadata →
      llm.generate get_text2sql_generation_system_prompt
        (get_text2sql_generation_user_prompt
          (QueryRouter.effective_query llm query context) metadata) = Except.ok none →
      (Text2SQLAgent._generate_sql llm db
        (QueryRouter.effective_query llm query context) none).1 =
        Except.error
          "Failed to generate SQL: SQL generation failed: empty response from language model") ∧
    (QueryRouter.route_query s llm db query context).response.success = false ∧
    (QueryRouter.route_query s llm db query context).response.error = some e ∧
    (QueryRouter.route_query s llm db query context).events.filter Event.isDbExecute = [] := by
  refine ⟨?_, ?_⟩
  · intro metadata hm hg
    simp [Text2SQLAgent._generate_sql, hm, hg]
  · rw [route_query_text2sql s llm db query context hroute,
      process_query_genfail s llm db _ context e hvalid hgen]
    refine ⟨rfl, rfl, ?_⟩
    simp [List.filter_append, Event.isDbExecute, verify_filter_isDbExecute,
      generate_filter_isDbExecute]

theorem C6_witness :
    (QueryRouter.route_query sampleSettings llmGenFails sampleDB
        "list customers" none).response.success = false ∧
    (QueryRouter.route_query sampleSettings llmGenFails sampleDB
        "list customers" none).response.error =
      some "Failed to generate SQL: SQL generation failed: empty response from language model" ∧
    (QueryRouter.route_query sampleSettings llmGenFails sampleDB
        "list customers" none).events.filter Event.isDbExecute = [] :=
  (C6_generation_failure_skips_executor sampleSettings llmGenFails sampleDB
    "list customers" none
    "Failed to generate SQL: SQL generation failed: empty response from language model"
    (by decide) (by decide) rfl).2

/-- C7: round trip — when a query routed to the Text2SQL handler
verifies as valid, generation produces a SQLQuery whose statement is Q,
and the database returns rows for Q, the response carries sql_query=Q
exactly and query_results is exactly the executor result for Q, whose
rows are the returned tuples zipped with the column names in their
original order (no reordering or mutation). -/
theorem C7_roundtrip_rows_preserved (s : Settings) (llm : LLMOracle)
    (db : DBOracle) (query : String) (context : Option Context) (sq : SQLQuery)
    (cols : List String) (data : List (List String))
    (hroute : (QueryRouter.classify_query llm query context).1.query_type =
      QueryType.text2sql)
    (hvalid : (Text2SQLAgent._verify_query llm db
      (QueryRouter.effective_query llm query context) context).1.validation_status =
      QueryValidationType.valid)
    (hgen : (Text2SQLAgent._generate_sql llm db
      (QueryRouter.effective_query llm query context) none).1 = Except.ok sq)
    (hdb : db.run sq.sql_query = DBRaw.rowsResult cols data) :
    (QueryRouter.route_query s llm db query context).response.sql_query =
      some sq.sql_query ∧
    (QueryRouter.route_query s llm db query context).response.query_results =
      some (DatabaseConnector.execute_query s db sq.sql_query) ∧
    (DatabaseConnector.execute_query s db sq.sql_query).rows =
      some (data.map (fun r => cols.zip r)) ∧
    (DatabaseConnector.execute_query s db sq.sql_query).columns = some cols := by
  rw [route_query_text2sql s llm db query context hroute,
    process_query_success s llm db _ context sq hvalid hgen]
  refine ⟨rfl, rfl, ?_, ?_⟩ <;>
    simp [DatabaseConnector.execute_query, hdb]

theorem C7_witness :
    (QueryRouter.route_query sampleSettings llmRoundtrip sampleDB
        "list all customers" none).response.sql_query =
      some "SELECT * FROM customers;" ∧
    (QueryRouter.route_query sampleSettings llmRoundtrip sampleDB
        "list all customers" none).response.query_results =
      some (DatabaseConnector.execute_query sampleSettings sampleDB
        "SELECT * FROM customers;") ∧
    (DatabaseConnector.execute_query sampleSettings sampleDB
        "SELECT * FROM customers;").rows =
      some [[("id", "1"), ("name", "Ada")], [("id", "2"), ("name", "Bob")]] ∧
    (DatabaseConnector.execute_query sampleSettings sampleDB
        "SELECT * FROM customers;").columns = some ["id", "name"] :=
  C7_roundtrip_rows_preserved sampleSettings llmRoundtrip sampleDB
    "list all customers" none
    { reasoning := "derivation"
      sql_query := "SELECT * FROM customers;"
      explanation := "lists all customers" }
    ["id", "name"] [["1", "Ada"], ["2", "Bob"]]
    (by decide) (by decide) rfl (by decide)

/-- C8: evaluation at the failing input — with allow_manipulation set
to false, a run whose generated statement is an INSERT still reaches
the executor and is executed successfully: no pre-execution read-only
check exists anywhere on the path (the Settings flag is never
consulted by execute_query or the pipeline). -/
theorem C8_manipulation_flag_not_enforced :
    noManipSettings.allow_manipulation = false ∧
    Event.dbExecute "INSERT INTO users (id) VALUES (1)" ∈
      (QueryRouter.route_query noManipSettings llmManip sampleDB "add a user" none).events ∧
    (QueryRouter.route_query noManipSettings llmManip sampleDB
      "add a user" none).response.success = true ∧
    (DatabaseConnector.execute_query noManipSettings sampleDB
      "INSERT INTO users (id) VALUES (1)").success = true := by
  decide

/-- C9 counterexample: the historical VisualizationAgent.process_query
mutates the message history of the context passed in — after one call
with an empty history, the caller observes two appended messages, so
the claim that no handler ever mutates the context history is false at
this concrete input. -/
theorem C9_counterexample_visualization_mutates :
    (SrcRev.VisualizationAgent.process_query "show pie chart"
      (some { messages := [] })).2 ≠ some { messages := [] } ∧
    (SrcRev.VisualizationAgent.process_query "show pie chart"
      (some { messages := [] })).2 =
      some { messages :=
        [{ role := "user", content := "show pie chart" },
         { role := "assistant",
           content := "I\x27ve created a pie chart based on your query: show pie chart" }] } := by
  decide

theorem text2sql_process_ctx (s : Settings) (llm : LLMOracle) (db : DBOracle)
    (q : String) (c : Option Context) :
    (Text2SQLAgent.process_query s llm db q c).ctx = c := by
  simp only [Text2SQLAgent.process_query]
  split
  · rfl
  · rfl
  · split <;> rfl

theorem chat_process_ctx (llm : LLMOracle) (q : String) (c : Option Context) :
    (ChatAgent.process_query llm q c).ctx = c := by
  unfold ChatAgent.process_query
  split <;> rfl

/-- C9 (amended): the classifier and every app-revision handler leave
the context message history untouched — after route_query the caller
observes exactly the context it passed in — whereas the historical
VisualizationAgent.process_query appends exactly a user message and an
assistant confirmation to every context it is handed. -/
theorem C9_amended_context_mutation (s : Settings) (llm : LLMOracle) (db : DBOracle)
    (query : String) (context : Option Context) :
    (QueryRouter.route_query s llm db query context).ctx = context ∧
    (∀ (q : String) (c : SrcRev.SrcContext),
      (SrcRev.VisualizationAgent.process_query q (some c)).2 =
        some { messages := c.messages ++
          [{ role := "user", content := q },
           { role := "assistant",
             content := "I\x27ve created a " ++ SrcRev.viz_type_of q ++
               " chart based on your query: " ++ q }] }) := by
  constructor
  · simp only [QueryRouter.route_query]
    split <;>
      simp [text2sql_process_ctx, chat_process_ctx, VisualizationAgent.process_query]
  · intro q c
    simp [SrcRev.VisualizationAgent.process_query, SrcRev.SrcContext.add_message]

end DBAgent
